import Mathlib

/-
Verification of the PortSymphony dashboard-agent core.

Shallow embedding of `backend/psa_knowledge_base.py` and
`backend/dashboard_agent.py` (class `DashboardAgent`):

* Python floats are modelled as exact extended rationals (`PyFloat`): a
  fraction `Frac` (integer numerator, natural denominator), plus the IEEE
  special values `nan`, `inf`, `-inf`.  Comparisons against `nan` are false,
  as in IEEE 754.  Decimal constants of the source (46.5, 4.6, 0.20, ...)
  are exact here, whereas Python stores their nearest binary double; no
  claim below depends on that rounding.
* JSON-serializable Python values (the tool results and result payloads,
  which are plain dicts/lists/numbers/strings) are modelled by `JVal`;
  dicts are ordered association lists, as Python dicts preserve insertion
  order, and `d[k] = v` keeps an existing key at its position.
* Code that can raise is modelled in `Except String`; an `Except.error e`
  is a raised exception whose `str(...)` is `e` (exception texts are
  abbreviated where the claims do not inspect them).
* The Azure OpenAI chat-completion endpoint is an external collaborator;
  it is modelled as a stub `Nat → BackendStep` giving, for each successive
  call the orchestration loop makes, either a raised transport error or
  the reply message (`content` plus `tool_calls`).  A tool call's
  `arguments` field holds the result of `json.loads` on the argument
  string: `none` models a string on which `json.loads` raises.
-/

set_option maxRecDepth 4000

/-! ## Exact numeric model of Python floats -/

/-- An exact fraction: integer numerator over natural denominator.  A value
representing a Python float always has a positive denominator; operations
below preserve that. -/
structure Frac where
  num : Int
  den : Nat
deriving DecidableEq, Repr

inductive PyFloat where
  | nan : PyFloat
  | inf : PyFloat
  | ninf : PyFloat
  | fin : Frac → PyFloat
deriving DecidableEq, Repr

/-- Integer `n` as a `PyFloat`. -/
def fq (n : Int) : PyFloat := .fin ⟨n, 1⟩

def fracLe (a b : Frac) : Bool := decide (a.num * (b.den : Int) ≤ b.num * (a.den : Int))

def fracLt (a b : Frac) : Bool := decide (a.num * (b.den : Int) < b.num * (a.den : Int))

/-- Python `<=` on floats (IEEE: any comparison with `nan` is false). -/
def pyLe : PyFloat → PyFloat → Bool
  | .nan, _ => false
  | _, .nan => false
  | .ninf, _ => true
  | _, .ninf => false
  | _, .inf => true
  | .inf, _ => false
  | .fin a, .fin b => fracLe a b

/-- Python `<` on floats. -/
def pyLt : PyFloat → PyFloat → Bool
  | .nan, _ => false
  | _, .nan => false
  | .ninf, .ninf => false
  | .ninf, _ => true
  | _, .ninf => false
  | .inf, _ => false
  | .fin _, .inf => true
  | .fin a, .fin b => fracLt a b

def pyGt (a b : PyFloat) : Bool := pyLt b a

def pyGe (a b : PyFloat) : Bool := pyLe b a

/-- Truthiness of a float (`0.0` is falsy; `nan` and the infinities are truthy). -/
def pyFloatTruthy : PyFloat → Bool
  | .fin f => f.num ≠ 0
  | _ => true

def fracAdd (a b : Frac) : Frac := ⟨a.num * b.den + b.num * a.den, a.den * b.den⟩

def fracSub (a b : Frac) : Frac := ⟨a.num * b.den - b.num * a.den, a.den * b.den⟩

def fracMul (a b : Frac) : Frac := ⟨a.num * b.num, a.den * b.den⟩

/-- Fraction division; division by a zero fraction never happens in the
embedded code (all divisors are nonzero constants). -/
def fracDiv (a b : Frac) : Frac :=
  if 0 ≤ b.num then ⟨a.num * b.den, a.den * b.num.natAbs⟩
  else ⟨-(a.num * b.den), a.den * b.num.natAbs⟩

def fracSign (f : Frac) : Int := if f.num > 0 then 1 else if f.num < 0 then -1 else 0

/-- IEEE-style multiplication. -/
def pyMul : PyFloat → PyFloat → PyFloat
  | .nan, _ => .nan
  | _, .nan => .nan
  | .inf, .inf => .inf
  | .inf, .ninf => .ninf
  | .ninf, .inf => .ninf
  | .ninf, .ninf => .inf
  | .inf, .fin f => if fracSign f = 1 then .inf else if fracSign f = -1 then .ninf else .nan
  | .fin f, .inf => if fracSign f = 1 then .inf else if fracSign f = -1 then .ninf else .nan
  | .ninf, .fin f => if fracSign f = 1 then .ninf else if fracSign f = -1 then .inf else .nan
  | .fin f, .ninf => if fracSign f = 1 then .ninf else if fracSign f = -1 then .inf else .nan
  | .fin a, .fin b => .fin (fracMul a b)

/-- IEEE-style subtraction (only `constant - finite` and finite cases are
exercised by the embedded code). -/
def pySub : PyFloat → PyFloat → PyFloat
  | .nan, _ => .nan
  | _, .nan => .nan
  | .inf, .inf => .nan
  | .ninf, .ninf => .nan
  | .inf, _ => .inf
  | .ninf, _ => .ninf
  | _, .inf => .ninf
  | _, .ninf => .inf
  | .fin a, .fin b => .fin (fracSub a b)

/-- IEEE-style division.  Python raises `ZeroDivisionError` on a zero float
divisor; the embedded code only ever divides by the nonzero constants
4, 4.6, 7.5, 30 and 365, so that branch is unreachable and is given the
junk value `nan` here. -/
def pyDiv : PyFloat → PyFloat → PyFloat
  | .nan, _ => .nan
  | _, .nan => .nan
  | .inf, .inf => .nan
  | .inf, .ninf => .nan
  | .ninf, .inf => .nan
  | .ninf, .ninf => .nan
  | .inf, .fin f => if fracSign f = -1 then .ninf else .inf
  | .ninf, .fin f => if fracSign f = -1 then .inf else .ninf
  | .fin _, .inf => fq 0
  | .fin _, .ninf => fq 0
  | .fin a, .fin b => if b.num = 0 then .nan else .fin (fracDiv a b)

/-- Python `int(x)`: truncation toward zero; raises on `nan` and infinities. -/
def pyTruncE : PyFloat → Except String Int
  | .nan => .error "cannot convert float NaN to integer"
  | .inf => .error "cannot convert float infinity to integer"
  | .ninf => .error "cannot convert float infinity to integer"
  | .fin f =>
    if f.num ≥ 0 then .ok (Int.ediv f.num f.den)
    else .ok (-(Int.ediv (-f.num) f.den))

/-! ## String helpers (Python string operations used by the source) -/

def strLower (s : String) : String := String.mk (s.data.map Char.toLower)

def strUpper (s : String) : String := String.mk (s.data.map Char.toUpper)

/-- Does the character list start with the given needle? -/
def chStart : List Char → List Char → Bool
  | _, [] => true
  | [], _ :: _ => false
  | h :: hs, n :: ns => h = n && chStart hs ns

/-- Does the needle occur in the character list?  (Python `in` on strings.) -/
def chSub : List Char → List Char → Bool
  | [], needle => needle.isEmpty
  | h :: t, needle => chStart (h :: t) needle || chSub t needle

/-- Python substring test `sub in hay`. -/
def containsSub (hay sub : String) : Bool := chSub hay.data sub.data

/-- Round `10 * (n / d)` to the nearest integer, ties to even (the rounding
Python's `format` applies for `:.1f`); `d` is positive. -/
def round10 (n : Int) (d : Nat) : Int :=
  let a : Int := n * 10
  let b : Int := (d : Int)
  let f : Int := Int.ediv a b
  let r : Int := a - f * b
  if 2 * r < b then f else if 2 * r > b then f + 1 else if f % 2 = 0 then f else f + 1

/-- Round `n / d` to the nearest integer, ties to even (Python `:.0f`). -/
def round1 (n : Int) (d : Nat) : Int :=
  let b : Int := (d : Int)
  let f : Int := Int.ediv n b
  let r : Int := n - f * b
  if 2 * r < b then f else if 2 * r > b then f + 1 else if f % 2 = 0 then f else f + 1

def digits1 (m : Nat) : String := toString (m / 10) ++ "." ++ toString (m % 10)

/-- Python `f"{x:.1f}"`.  (A negative value rounding to zero would print
`-0.0` in Python; that corner does not occur in any claim.) -/
def fmt1 : PyFloat → String
  | .nan => "nan"
  | .inf => "inf"
  | .ninf => "-inf"
  | .fin f =>
    let v := round10 f.num f.den
    if v < 0 then "-" ++ digits1 v.natAbs else digits1 v.natAbs

/-- Python `f"{x:.0f}"`. -/
def fmt0 : PyFloat → String
  | .nan => "nan"
  | .inf => "inf"
  | .ninf => "-inf"
  | .fin f =>
    let v := round1 f.num f.den
    if v < 0 then "-" ++ toString v.natAbs else toString v.natAbs

/-- Group the digits of a natural number in threes, from the right. -/
def commaGroups (s : List Char) : List Char :=
  let r := s.reverse
  let rec go : List Char → Nat → List Char
    | [], _ => []
    | c :: cs, k => if k = 3 then ',' :: c :: go cs 1 else c :: go cs (k + 1)
  (go r 0).reverse

/-- Python `f"{n:,}"` for an integer: thousands separators. -/
def fmtComma (n : Int) : String :=
  let core := String.mk (commaGroups (toString n.natAbs).data)
  if n < 0 then "-" ++ core else core

/-- Python `str.replace` for single characters. -/
def strReplaceChar (s : String) (a b : Char) : String :=
  String.mk (s.data.map (fun c => if c = a then b else c))

/-- Python `str.title()`: uppercase every letter that follows a non-letter,
lowercase the other letters. -/
def pyTitle (s : String) : String :=
  let rec go : List Char → Bool → List Char
    | [], _ => []
    | c :: cs, prevAlpha =>
      if c.isAlpha then
        (if prevAlpha then c.toLower else c.toUpper) :: go cs true
      else c :: go cs false
  String.mk (go s.data false)

/-! ## JSON-serializable Python values -/

inductive JVal where
  | null : JVal
  | boolv : Bool → JVal
  | intv : Int → JVal
  | num : PyFloat → JVal
  | str : String → JVal
  | arr : List JVal → JVal
  | obj : List (String × JVal) → JVal
deriving Repr

/-- An ordered Python dict with string keys. -/
abbrev PyDict := List (String × JVal)

mutual

/-- Structural equality on `JVal` (Python `==` as used by `dict.fromkeys`). -/
def JVal.beq : JVal → JVal → Bool
  | .null, .null => true
  | .boolv a, .boolv b => a == b
  | .intv a, .intv b => a == b
  | .num a, .num b => a == b
  | .str a, .str b => a == b
  | .arr a, .arr b => JVal.beqList a b
  | .obj a, .obj b => JVal.beqObj a b
  | _, _ => false

def JVal.beqList : List JVal → List JVal → Bool
  | [], [] => true
  | x :: xs, y :: ys => JVal.beq x y && JVal.beqList xs ys
  | _, _ => false

def JVal.beqObj : List (String × JVal) → List (String × JVal) → Bool
  | [], [] => true
  | (k1, v1) :: xs, (k2, v2) :: ys => k1 == k2 && JVal.beq v1 v2 && JVal.beqObj xs ys
  | _, _ => false

end

instance : BEq JVal := ⟨JVal.beq⟩

/-- `d.get(k)` / `d[k]` presence: first (unique) binding of the key. -/
def jget (d : PyDict) (k : String) : Option JVal :=
  (d.find? (fun p => p.1 == k)).map (fun p => p.2)

/-- Python `d[k] = v`: update in place if the key exists (keeping its
position), otherwise append. -/
def jset (d : PyDict) (k : String) (v : JVal) : PyDict :=
  if d.any (fun p => p.1 == k) then
    d.map (fun p => if p.1 == k then (k, v) else p)
  else d ++ [(k, v)]

/-- Python truthiness of a JSON-like value. -/
def truthy : JVal → Bool
  | .null => false
  | .boolv b => b
  | .intv n => n ≠ 0
  | .num f => pyFloatTruthy f
  | .str s => !s.isEmpty
  | .arr l => !l.isEmpty
  | .obj l => !l.isEmpty

/-- `opt.isSome` and the value is truthy; `none` models Python `None`
falling out of `dict.get`. -/
def optTruthy : Option JVal → Bool
  | none => false
  | some v => truthy v

/-- Interpret a `JVal` as a number for a Python numeric comparison; a
non-numeric operand would raise `TypeError` in Python. -/
def asNumE : Option JVal → Except String PyFloat
  | some (.num f) => .ok f
  | some (.intv n) => .ok (fq n)
  | some (.boolv b) => .ok (fq (if b then 1 else 0))
  | _ => .error "unsupported operand type for numeric comparison"

/-- `x.get(k)` where `x` must be a dict (otherwise Python raises
`AttributeError`). -/
def attrGet (v : JVal) (k : String) : Except String (Option JVal) :=
  match v with
  | .obj l => .ok (jget l k)
  | _ => .error "object has no attribute get"

/-- `d.get(k1, {}).get(k2)` on a dict `d`. -/
def chainGet (d : PyDict) (k1 k2 : String) : Except String (Option JVal) :=
  match jget d k1 with
  | none => .ok none
  | some v => attrGet v k2

/-- Require a key to be present (`d[k]`; missing key raises `KeyError`). -/
def requireKey (d : PyDict) (k : String) : Except String JVal :=
  match jget d k with
  | some v => .ok v
  | none => .error ("KeyError: " ++ k)

/-! ## `backend/psa_knowledge_base.py`: threshold tables -/

/-- One classification range: `(level, (min, max))`. -/
abbrev ThresholdRange := String × PyFloat × PyFloat

/-- `PERFORMANCE_THRESHOLDS["wait_time"]`, in dict insertion order. -/
def wait_time_ranges : List ThresholdRange :=
  [("excellent", fq 0, fq 2),
   ("good", fq 2, fq 4),
   ("concerning", fq 4, fq 6),
   ("critical", fq 6, .inf)]

/-- `PERFORMANCE_THRESHOLDS["arrival_accuracy"]`, in dict insertion order. -/
def arrival_accuracy_ranges : List ThresholdRange :=
  [("excellent", fq 95, fq 100),
   ("good", fq 90, fq 95),
   ("needs_improvement", fq 85, fq 90),
   ("poor", fq 0, fq 85)]

/-- `PERFORMANCE_THRESHOLDS["berth_utilization"]`, in dict insertion order. -/
def berth_utilization_ranges : List ThresholdRange :=
  [("optimal", fq 75, fq 85),
   ("underutilized", fq 0, fq 75),
   ("congested", fq 85, fq 100)]

/-- `PERFORMANCE_THRESHOLDS["carbon_performance"]`, in dict insertion order. -/
def carbon_performance_ranges : List ThresholdRange :=
  [("excellent", fq 20, .inf),
   ("good", fq 15, fq 20),
   ("acceptable", fq 10, fq 15),
   ("poor", fq 0, fq 10)]

/-- The whole `PERFORMANCE_THRESHOLDS` dict. -/
def PERFORMANCE_THRESHOLDS : List (String × List ThresholdRange) :=
  [("wait_time", wait_time_ranges),
   ("arrival_accuracy", arrival_accuracy_ranges),
   ("berth_utilization", berth_utilization_ranges),
   ("carbon_performance", carbon_performance_ranges)]

/-- The membership test `min_val <= hours < max_val` used by
`interpret_wait_time` (half-open). -/
def waitMatch (r : ThresholdRange) (v : PyFloat) : Bool :=
  pyLe r.2.1 v && pyLt v r.2.2

/-- The membership test `min_val <= x <= max_val` used by
`interpret_arrival_accuracy` and `interpret_berth_utilization` (closed). -/
def closedMatch (r : ThresholdRange) (v : PyFloat) : Bool :=
  pyLe r.2.1 v && pyLe v r.2.2

/-! ## `backend/psa_knowledge_base.py`: interpretation functions -/

def waitIcon : String → String
  | "excellent" => "✅"
  | "good" => "✅"
  | "concerning" => "⚠️"
  | "critical" => "🚨"
  | _ => ""

def waitMessage (level : String) (hours : PyFloat) : String :=
  match level with
  | "excellent" => "Wait time of " ++ fmt1 hours ++ " hours is excellent - well below the 2-hour target"
  | "good" => "Wait time of " ++ fmt1 hours ++ " hours is acceptable but trending toward target limit"
  | "concerning" => "Wait time of " ++ fmt1 hours ++ " hours exceeds target (2 hours) - attention needed"
  | "critical" => "Wait time of " ++ fmt1 hours ++ " hours is CRITICAL - immediate action required"
  | _ => ""

/-- `interpret_wait_time`: first matching half-open range wins; no match
yields the explicit `unknown` dict (which carries no `action_needed` and no
`severity` key). -/
def interpret_wait_time (hours : PyFloat) : PyDict :=
  match wait_time_ranges.find? (fun r => waitMatch r hours) with
  | some (level, _, _) =>
    [("level", .str level),
     ("icon", .str (waitIcon level)),
     ("message", .str (waitMessage level hours)),
     ("action_needed", .boolv (level == "concerning" || level == "critical")),
     ("severity", .str level)]
  | none =>
    [("level", .str "unknown"), ("icon", .str "❓"),
     ("message", .str "Wait time data unavailable")]

def accuracyIcon : String → String
  | "excellent" => "✅"
  | "good" => "✅"
  | "needs_improvement" => "⚠️"
  | "poor" => "🔴"
  | _ => ""

def accuracyMessage (level : String) (accuracy : PyFloat) : String :=
  match level with
  | "excellent" => "Arrival accuracy of " ++ fmt1 accuracy ++ "% is excellent - exceeding 95% target"
  | "good" => "Arrival accuracy of " ++ fmt1 accuracy ++ "% is good - meeting 90% target"
  | "needs_improvement" => "Arrival accuracy of " ++ fmt1 accuracy ++ "% needs improvement - below 90% target"
  | "poor" => "Arrival accuracy of " ++ fmt1 accuracy ++ "% is poor - significantly below 90% target"
  | _ => ""

/-- `interpret_arrival_accuracy`: note the closed `min <= x <= max` test. -/
def interpret_arrival_accuracy (accuracy : PyFloat) : PyDict :=
  match arrival_accuracy_ranges.find? (fun r => closedMatch r accuracy) with
  | some (level, _, _) =>
    [("level", .str level),
     ("icon", .str (accuracyIcon level)),
     ("message", .str (accuracyMessage level accuracy)),
     ("action_needed", .boolv (level == "needs_improvement" || level == "poor")),
     ("severity", .str level)]
  | none =>
    [("level", .str "unknown"), ("icon", .str "❓"),
     ("message", .str "Arrival accuracy data unavailable")]

def utilizationIcon : String → String
  | "optimal" => "✅"
  | "underutilized" => "📉"
  | "congested" => "⚠️"
  | _ => ""

def utilizationMessage (level : String) (utilization : PyFloat) : String :=
  match level with
  | "optimal" => "Berth utilization of " ++ fmt1 utilization ++ "% is optimal (target: 75-85%)"
  | "underutilized" => "Berth utilization of " ++ fmt1 utilization ++ "% indicates underutilization - opportunity to increase throughput"
  | "congested" => "Berth utilization of " ++ fmt1 utilization ++ "% is high - risk of congestion and delays"
  | _ => ""

/-- `interpret_berth_utilization`: closed-interval test, like accuracy. -/
def interpret_berth_utilization (utilization : PyFloat) : PyDict :=
  match berth_utilization_ranges.find? (fun r => closedMatch r utilization) with
  | some (level, _, _) =>
    [("level", .str level),
     ("icon", .str (utilizationIcon level)),
     ("message", .str (utilizationMessage level utilization)),
     ("action_needed", .boolv (level != "optimal")),
     ("severity", .str level)]
  | none =>
    [("level", .str "unknown"), ("icon", .str "❓"),
     ("message", .str "Utilization data unavailable")]

/-! ## `backend/psa_knowledge_base.py`: berth data and recommendations -/

/-- Python `str(x)` as needed for the values interpolated by the knowledge
base (every float so rendered in the source has at most one decimal
digit, so `:.1f` formatting coincides with `str`). -/
def pyStr : JVal → String
  | .str s => s
  | .intv n => toString n
  | .boolv b => if b then "True" else "False"
  | .null => "None"
  | .num f =>
    match f with
    | .fin g => if g.den = 1 then toString g.num ++ ".0" else fmt1 (.fin g)
    | other => fmt1 other
  | _ => ""

def mkBerth (terminal capacity : String) (size : Int) (draftNum : Int) (draftDen : Nat)
    (equipment : String) : PyDict :=
  [("terminal", .str terminal),
   ("type", .str "container"),
   ("capacity", .str capacity),
   ("max_vessel_size", .intv size),
   ("max_draft", .num (.fin ⟨draftNum, draftDen⟩)),
   ("equipment", .str equipment)]

/-- `BERTH_CHARACTERISTICS`. -/
def BERTH_CHARACTERISTICS : List (String × PyDict) :=
  [("B01", mkBerth "Terminal 1" "large" 20000 16 1 "4 gantry cranes"),
   ("B02", mkBerth "Terminal 1" "large" 20000 16 1 "4 gantry cranes"),
   ("B03", mkBerth "Terminal 2" "medium" 18000 31 2 "3 gantry cranes"),
   ("B04", mkBerth "Terminal 2" "medium" 18000 31 2 "3 gantry cranes"),
   ("B05", mkBerth "Terminal 3" "large" 22000 17 1 "5 gantry cranes"),
   ("B06", mkBerth "Terminal 3" "large" 22000 17 1 "5 gantry cranes"),
   ("B07", mkBerth "Terminal 4" "small" 15000 14 1 "2 gantry cranes"),
   ("B08", mkBerth "Terminal 4" "small" 15000 14 1 "2 gantry cranes")]

/-- `BERTH_CHARACTERISTICS.get(key, {})` for a possibly non-string key. -/
def berthLookup : Option JVal → PyDict
  | some (.str s) => match (BERTH_CHARACTERISTICS.find? (fun p => p.1 == s)) with
    | some p => p.2
    | none => []
  | _ => []

/-- `get_recommendations_for_wait_time(wait_time, berth=None, vessel_count=0)`.
`berth` is the raw argument value (`None` when absent); `vessel_count` is the
raw count value, compared numerically (a non-numeric count would raise, hence
`Except`). -/
def get_recommendations_for_wait_time (wait_time : PyFloat) (berth : Option JVal)
    (vessel_count : JVal) : Except String (List String) := do
  let berth_str := if optTruthy berth then " at " ++ pyStr (berth.getD .null) else ""
  if pyGt wait_time (fq 6) then
    let base := ["🚨 CRITICAL: " ++ fmt1 wait_time ++ "h wait time" ++ berth_str ++ " - Expedite current operations immediately",
                 "Emergency actions: Fast-track departures, consider reassignment to alternative berths"]
    let cn ← asNumE (some vessel_count)
    if pyGt cn (fq 3) then
      return base ++ ["Multiple vessels affected (" ++ pyStr vessel_count ++ ") - coordinate with port authority for emergency capacity"]
    else
      return base
  else if pyGt wait_time (fq 4) then
    let base := ["⚠️ HIGH PRIORITY: " ++ fmt1 wait_time ++ "h wait time" ++ berth_str ++ " - Monitor closely and accelerate operations",
                 "Consider: Optimizing berth allocation, adjusting vessel arrival schedule"]
    if optTruthy berth then
      let berth_info := berthLookup berth
      if jget berth_info "capacity" == some (.str "small") then
        return base ++ ["Note: " ++ pyStr (berth.getD .null) ++ " has limited capacity - consider redirecting to larger berths (B01, B02, B05, B06)"]
      else
        return base
    else
      return base
  else if pyGt wait_time (fq 2) then
    return ["Monitor " ++ (if optTruthy berth then pyStr (berth.getD .null) else "operations") ++ " - wait time trending above 2-hour target",
            "Preventive action: Review upcoming schedule for potential congestion"]
  else
    return ["✅ Wait time within target - maintain current operations"]

/-- `get_recommendations_for_accuracy(accuracy, vessel_name=None)`. -/
def get_recommendations_for_accuracy (accuracy : PyFloat) (vessel_name : Option JVal) :
    List String :=
  let vessel_str := if optTruthy vessel_name then " for " ++ pyStr (vessel_name.getD .null) else ""
  if pyLt accuracy (fq 85) then
    ["🔴 POOR PERFORMANCE: " ++ fmt1 accuracy ++ "% arrival accuracy" ++ vessel_str,
     "Root cause analysis needed: Check ETA prediction models, weather routing, communication protocols",
     "Immediate actions: Improve vessel-port communication, enhance traffic monitoring"]
  else if pyLt accuracy (fq 90) then
    ["⚠️ BELOW TARGET: " ++ fmt1 accuracy ++ "% arrival accuracy" ++ vessel_str ++ " - target is 90%+",
     "Suggestions: Review ETA calculation methods, improve weather forecast integration"]
  else if pyLt accuracy (fq 95) then
    ["✅ GOOD: " ++ fmt1 accuracy ++ "% arrival accuracy - slight room for improvement",
     "Fine-tuning opportunity: Optimize last-mile navigation, refine berth allocation timing"]
  else
    ["✅ EXCELLENT: " ++ fmt1 accuracy ++ "% arrival accuracy - maintain current practices"]

/-- `get_recommendations_for_utilization(utilization)` (`Except` because the
underutilized branch applies `int(...)`, which raises on `nan`/infinities). -/
def get_recommendations_for_utilization (utilization : PyFloat) :
    Except String (List String) := do
  if pyGt utilization (fq 90) then
    return ["⚠️ HIGH UTILIZATION: " ++ fmt1 utilization ++ "% - risk of congestion",
            "Actions: Implement arrival time windows, optimize turnaround times, prepare overflow plans",
            "Consider: Dynamic berth allocation, express lanes for fast turnaround vessels"]
  else if pyGt utilization (fq 85) then
    return ["⚠️ APPROACHING CAPACITY: " ++ fmt1 utilization ++ "% utilization",
            "Monitor closely and prepare contingency plans"]
  else if pyLt utilization (fq 70) then
    let gap := pySub (fq 80) utilization
    let extra ← pyTruncE (pyDiv gap (fq 4))
    return ["📉 UNDERUTILIZED: " ++ fmt1 utilization ++ "% - opportunity to increase throughput",
            "Opportunities: Attract additional vessel calls, reduce turnaround time, optimize scheduling",
            "Potential gain: " ++ fmt1 gap ++ "% capacity available = ~" ++ toString extra ++ " additional vessels per day"]
  else
    return ["✅ OPTIMAL: " ++ fmt1 utilization ++ "% utilization - maintain current balance"]

def jgetStrD (d : PyDict) (k : String) (dflt : String) : String :=
  match jget d k with
  | some v => pyStr v
  | none => dflt

def jgetIntD (d : PyDict) (k : String) (dflt : Int) : Int :=
  match jget d k with
  | some (.intv n) => n
  | _ => dflt

/-- `get_berth_specific_insights(berth_id)`; `berth_id` is the raw argument
value (always a string in practice, rendered with `str` in the messages). -/
def get_berth_specific_insights (berth_id : JVal) : PyDict :=
  let berth_info := berthLookup (some berth_id)
  if berth_info.isEmpty then
    [("error", .str ("Berth " ++ pyStr berth_id ++ " not found in database"))]
  else
    let insights : PyDict :=
      [("id", berth_id),
       ("characteristics", .obj berth_info),
       ("capabilities", .str ("Can handle vessels up to " ++ fmtComma (jgetIntD berth_info "max_vessel_size" 0) ++ " TEU with max draft " ++ (match jget berth_info "max_draft" with | some v => pyStr v | none => "0") ++ "m")),
       ("equipment", .str (jgetStrD berth_info "equipment" "Unknown")),
       ("capacity_class", .str (strUpper (jgetStrD berth_info "capacity" "Unknown"))),
       ("terminal", .str (jgetStrD berth_info "terminal" "Unknown"))]
    let best_for :=
      if jget berth_info "capacity" == some (.str "large") then
        "Ultra-large container vessels (ULCV), priority shipments"
      else if jget berth_info "capacity" == some (.str "medium") then
        "Standard container vessels, regional services"
      else
        "Smaller vessels, feeder services, quick turnarounds"
    jset insights "best_for" (.str best_for)

/-- `get_carbon_insights(carbon_saved, period_days=30)` (`Except` because the
`int(...)` conversions raise on non-finite floats). -/
def get_carbon_insights (carbon_saved : PyFloat) (period_days : Int) :
    Except String PyDict := do
  let trees_equivalent ← pyTruncE (pyMul carbon_saved (.fin ⟨93, 2⟩))
  let cars_equivalent ← pyTruncE (pyDiv carbon_saved (.fin ⟨23, 5⟩))
  let daily_rate := pyDiv carbon_saved (fq period_days)
  let annual_projection := pyMul daily_rate (fq 365)
  let households ← pyTruncE (pyDiv carbon_saved (.fin ⟨15, 2⟩))
  let insights : PyDict :=
    [("carbon_saved", .num carbon_saved),
     ("period_days", .intv period_days),
     ("equivalents", .obj
       [("trees_planted", .str (fmtComma trees_equivalent ++ " trees planted")),
        ("cars_off_road", .str (toString cars_equivalent ++ " cars off the road for a year")),
        ("households", .str (toString households ++ " homes\x27 energy for a year"))]),
     ("projections", .obj
       [("daily_rate", .str (fmt1 daily_rate ++ " tonnes/day")),
        ("annual_projection", .str (fmt0 annual_projection ++ " tonnes/year"))])]
  let performance :=
    if pyGe annual_projection (pyMul (pyMul carbon_saved (fq 12)) (.fin ⟨1, 5⟩)) then
      "✅ EXCELLENT - Exceeding 20% reduction target"
    else if pyGe annual_projection (pyMul (pyMul carbon_saved (fq 12)) (.fin ⟨3, 20⟩)) then
      "✅ GOOD - Meeting 15-20% reduction target"
    else
      "⚠️ BELOW TARGET - Additional optimization needed"
  return jset insights "performance" (.str performance)

/-! ## `backend/psa_knowledge_base.py`: stakeholder context -/

structure StakeholderProfile where
  focus : List String
  language : String
  interests : List String

def STAKEHOLDER_PROFILES : List (String × StakeholderProfile) :=
  [("top_management",
    ⟨["KPIs", "ROI", "strategic impact", "cost savings", "efficiency gains"],
     "high-level, strategic, percentage-based",
     ["overall performance", "trends", "benchmarks", "competitive advantage"]⟩),
   ("middle_management",
    ⟨["operational efficiency", "resource allocation", "process optimization", "team performance"],
     "tactical, actionable, metric-driven",
     ["bottlenecks", "improvement opportunities", "capacity planning"]⟩),
   ("frontline_operations",
    ⟨["immediate actions", "specific vessels", "berth assignments", "schedule adherence"],
     "direct, specific, actionable",
     ["current status", "next steps", "problem resolution", "real-time updates"]⟩)]

def middleManagementProfile : StakeholderProfile :=
  ⟨["operational efficiency", "resource allocation", "process optimization", "team performance"],
   "tactical, actionable, metric-driven",
   ["bottlenecks", "improvement opportunities", "capacity planning"]⟩

/-- `build_stakeholder_context(role="middle_management")`. -/
def build_stakeholder_context (role : String) : String :=
  let profile := ((STAKEHOLDER_PROFILES.find? (fun p => p.1 == role)).map (fun p => p.2)).getD
    middleManagementProfile
  "\nSTAKEHOLDER CONTEXT: " ++ pyTitle (strReplaceChar role '_' ' ')
    ++ "\n\nFocus areas: " ++ String.intercalate ", " profile.focus
    ++ "\nCommunication style: " ++ profile.language
    ++ "\nKey interests: " ++ String.intercalate ", " profile.interests
    ++ "\n\nTailor your responses accordingly.\n"

/-! ## `backend/dashboard_agent.py`: messages, backend and data access -/

/-- One tool call requested by the model.  `arguments` holds the result of
`json.loads` on the raw argument string; `none` models a string on which
`json.loads` raises. -/
structure ToolCall where
  id : String
  name : String
  arguments : Option PyDict

/-- The assistant message returned by one chat-completion call:
`result["choices"][0]["message"]`. -/
structure AssistantReply where
  content : String
  tool_calls : List ToolCall

/-- One chat-completion round trip: either the HTTP/parsing layer raises
(`failure`), or an assistant message comes back. -/
inductive BackendStep where
  | failure : String → BackendStep
  | reply : AssistantReply → BackendStep

/-- A message of the conversation list.  Tool-result content is kept
structurally (the source serializes it with `json.dumps`). -/
inductive Msg where
  | system : String → Msg
  | user : String → Msg
  | assistant : String → Msg
  | assistantCalls : AssistantReply → Msg
  | tool : (tool_call_id : String) → (name : String) → (content : JVal) → Msg

/-- The Data Access collaborator (`self.data`), exposed through the four
read-only query methods the executor calls; `Except.error` models the
method raising. -/
structure DataAccess where
  get_current_state : Except String JVal
  filter_data : PyDict → Except String JVal
  analyze_delays : Option JVal → JVal → Except String JVal
  get_recommendations : Option JVal → Except String JVal

def asObjE : JVal → Except String PyDict
  | .obj l => .ok l
  | _ => .error "object has no attribute get"

/-- `list(dict.fromkeys(result))`: stable deduplication, first occurrence
wins.  (On a list containing dicts Python would raise; the deduplicated
lists here hold recommendation strings.) -/
def dedupStable (l : List JVal) : List JVal :=
  let rec go : List JVal → List JVal → List JVal
    | [], _ => []
    | x :: xs, seen =>
      if seen.any (fun y => JVal.beq y x) then go xs seen else x :: go xs (x :: seen)
  go l []

/-! ## `_execute_function_with_insights` -/

/-- The body of `_execute_function_with_insights` inside its `try:`;
`Except.error` is an exception reaching the `except` clause.  A non-numeric
metric value raises `TypeError` inside the `interpret_*` call it is passed
to; that raise is modelled by the `asNumE` conversion at the call site. -/
def execute_function_core (data : DataAccess) (function_name : String)
    (arguments : PyDict) : Except String JVal := do
  if function_name == "get_dashboard_state" then
    let result ← data.get_current_state
    let mut rd ← asObjE result
    if optTruthy (jget rd "performance") then
      let perf ← asObjE ((jget rd "performance").getD .null)
      let mut perfCur := perf
      if optTruthy (jget perfCur "avg_wait_time") then
        let w ← asNumE (jget perfCur "avg_wait_time")
        perfCur := jset perfCur "wait_time_interpretation" (.obj (interpret_wait_time w))
      if optTruthy (jget perfCur "avg_arrival_accuracy") then
        let a ← asNumE (jget perfCur "avg_arrival_accuracy")
        perfCur := jset perfCur "accuracy_interpretation" (.obj (interpret_arrival_accuracy a))
      rd := jset rd "performance" (.obj perfCur)
    let tu ← chainGet rd "berths" "total_utilization"
    if optTruthy tu then
      let u ← asNumE tu
      let berths ← asObjE ((jget rd "berths").getD .null)
      rd := jset rd "berths" (.obj (jset berths "utilization_interpretation" (.obj (interpret_berth_utilization u))))
    return .obj rd
  else if function_name == "filter_data" then
    let result ← data.filter_data arguments
    let mut rd ← asObjE result
    if optTruthy (jget rd "summary") then
      let summary ← asObjE ((jget rd "summary").getD .null)
      if optTruthy (jget summary "avg_wait_time") then
        let w ← asNumE (jget summary "avg_wait_time")
        rd := jset rd "interpretation" (.obj (interpret_wait_time w))
        let interp ← asObjE ((jget rd "interpretation").getD .null)
        let an ← requireKey interp "action_needed"
        if truthy an then
          let recs ← get_recommendations_for_wait_time w (jget arguments "berth")
            ((jget summary "count").getD (.intv 0))
          rd := jset rd "recommendations" (.arr (recs.map .str))
      if optTruthy (jget arguments "berth") then
        let berth_insights := get_berth_specific_insights ((jget arguments "berth").getD .null)
        if (jget berth_insights "error").isNone then
          rd := jset rd "berth_insights" (.obj berth_insights)
    return .obj rd
  else if function_name == "analyze_delays" then
    let result ← data.analyze_delays (jget arguments "berth")
      ((jget arguments "time_period").getD (.str "24h"))
    let mut rd ← asObjE result
    if optTruthy (jget rd "avg_delay_time") then
      let d ← asNumE (jget rd "avg_delay_time")
      rd := jset rd "delay_interpretation" (.obj (interpret_wait_time d))
    if optTruthy (jget rd "total_delays") then
      let td ← asNumE (jget rd "total_delays")
      if pyGt td (fq 0) then
        let adt ← asNumE (some ((jget rd "avg_delay_time").getD (.intv 0)))
        let recs ← get_recommendations_for_wait_time adt (jget arguments "berth")
          ((jget rd "total_delays").getD .null)
        rd := jset rd "recommendations" (.arr (recs.map .str))
    return .obj rd
  else if function_name == "get_recommendations" then
    let result ← data.get_recommendations (jget arguments "focus_area")
    let state ← data.get_current_state
    let mut additional_recs : List String := []
    if jget arguments "focus_area" == some (.str "delays") then
      let st ← asObjE state
      let wt ← chainGet st "performance" "avg_wait_time"
      if optTruthy wt then
        let w ← asNumE wt
        let recs ← get_recommendations_for_wait_time w none (.intv 0)
        additional_recs := additional_recs ++ recs
    else if jget arguments "focus_area" == some (.str "efficiency") then
      let st ← asObjE state
      let acc ← chainGet st "performance" "avg_arrival_accuracy"
      if optTruthy acc then
        let a ← asNumE acc
        additional_recs := additional_recs ++ get_recommendations_for_accuracy a none
    else if jget arguments "focus_area" == some (.str "utilization") then
      let st ← asObjE state
      let tu ← chainGet st "berths" "total_utilization"
      if optTruthy tu then
        let u ← asNumE tu
        let recs ← get_recommendations_for_utilization u
        additional_recs := additional_recs ++ recs
    let merged : List JVal :=
      match result with
      | .arr l => l ++ additional_recs.map .str
      | _ => additional_recs.map .str
    return .obj [("recommendations", .arr (dedupStable merged))]
  else
    return .obj [("error", .str ("Unknown function: " ++ function_name))]

/-- `_execute_function_with_insights`: the `except Exception` clause turns
any raise into `{"error": str(e)}`. -/
def execute_function_with_insights (data : DataAccess) (function_name : String)
    (arguments : PyDict) : JVal :=
  match execute_function_core data function_name arguments with
  | .ok v => v
  | .error e => .obj [("error", .str e)]

/-! ## Prompt blocks (`self.system_prompt`, `self.few_shot_examples`) -/

def system_prompt : String :=
"You are an expert maritime operations analyst for PSA International with 20+ years of experience in port operations, vessel management, and logistics optimization.

DOMAIN EXPERTISE:
You understand:
- Maritime operations and port logistics
- Vessel scheduling and berth allocation
- Performance metrics and KPIs
- Carbon emissions and sustainability
- Operational efficiency optimization

PERFORMANCE THRESHOLDS (Industry Standards):
Wait Time:
  • Excellent: 0-2 hours ✅
  • Acceptable: 2-4 hours ✅
  • Concerning: 4-6 hours ⚠️
  • Critical: >6 hours 🚨 (Immediate action required)

Arrival Accuracy:
  • Excellent: >95% ✅
  • Good: 90-95% ✅
  • Needs Improvement: 85-90% ⚠️
  • Poor: <85% 🔴 (Root cause analysis needed)

Berth Utilization:
  • Optimal: 75-85% ✅ (Sweet spot)
  • Underutilized: <75% 📉 (Opportunity for more throughput)
  • Congested: >85% ⚠️ (Risk of delays)
  • Critical: >90% 🚨 (Congestion expected)

OPERATIONAL CONTEXT:
- Port operates 24/7 with peak hours: 08:00-12:00, 14:00-18:00
- Target turnaround time: 18-20 hours
- Average berth time: 24 hours
- Carbon reduction target: 15-20% annually
- Port capacity: 24 berths across 4 terminals
- Typical vessel size: 15,000-22,000 TEU

STAKEHOLDER AWARENESS:
Adapt your communication based on who you\x27re talking to:
- Top Management: Focus on KPIs, ROI, strategic impact, percentages, trends
- Middle Management: Focus on operational efficiency, resource allocation, bottlenecks
- Frontline Operations: Focus on immediate actions, specific vessels, berth assignments

CRITICAL INSTRUCTIONS:
You have REAL-TIME access to dashboard data through these functions:
1. get_dashboard_state() - See ALL current data (vessels, berths, KPIs, performance)
   → ALWAYS call this FIRST to understand the situation

2. filter_data() - Filter by specific criteria (berth, time window, vessel, status)
   → Use when user asks about specific berths, time periods, or vessels

3. analyze_delays() - Deep analysis of delay patterns and root causes
   → Use for delay-related questions or when wait times are concerning

4. get_recommendations() - Get optimization suggestions
   → Use when asked \"what should I do\" or for improvement suggestions

RESPONSE PROTOCOL:
1. Call appropriate function(s) to get REAL data
2. Interpret the data using domain knowledge
3. Provide SPECIFIC answer with:
   - Exact numbers (vessel names, berth IDs, wait times, percentages)
   - Status assessment (excellent/concerning/critical with icons)
   - Root cause if issues found
   - Actionable recommendations with expected impact
4. Use appropriate tone for stakeholder
5. Be concise but thorough - no fluff

RESPONSE FORMAT:
✅ Start with direct answer to the question
📊 Provide supporting data (specific vessels, numbers, trends)
🔍 Identify patterns or concerns if any
💡 End with actionable recommendations

Remember: You\x27re not just reporting data - you\x27re providing expert analysis and actionable insights!"

def few_shot_answer_delays : String :=
"I\x27ll check the current dashboard state for you.

[Calling: get_dashboard_state()]

Based on current data, I can see we have 2 vessels with significant delays:

**Critical Delays:**
1. **MSC Diana** at Berth B02:
   - Wait time: 5.8 hours 🚨 CRITICAL
   - Status: This exceeds our 2-hour target significantly
   - Root cause: Port congestion

2. **Ever Given** at Berth B05:
   - Wait time: 3.2 hours ⚠️ CONCERNING
   - Status: Above target but not critical yet

**Overall Status:**
- Average wait time across all berths: 2.4 hours (slightly above 2-hour target)
- Total vessels waiting: 4
- Terminal 1 utilization: 87% (risk of congestion)

**Immediate Actions Needed:**
1. 🚨 Priority: Expedite operations at B02 to free up capacity for MSC Diana
2. ⚠️ Monitor: Ever Given at B05 - prevent escalation to critical
3. 💡 Consider: Reassigning incoming vessels to Terminal 3 (lower utilization)

**Expected Impact:** Implementing these actions should reduce average wait time to <2 hours within 2-3 hours."

def few_shot_answer_berth : String :=
"I\x27ll filter the data for Berth B02 over the last 3 hours.

[Calling: filter_data(berth=\"B02\", time_window_hours=3)]

**Berth B02 Analysis (Last 3 Hours):**

**Current Status:** 🔴 Occupied
**Vessel:** MSC Diana (IMO: 9876543)
- Arrived: 14:23 (2.8 hours ago)
- Wait time before berthing: 1.2 hours ✅ (within target)
- Expected departure: 18:00 (1.5 hours from now)
- Operations progress: 65% complete

**Performance Metrics:**
- Arrival accuracy: 94.2% ✅ GOOD (target: >90%)
- Berth time so far: 2.8 hours (on track for 18-20 hour turnaround)
- No operational issues detected

**Berth Characteristics:**
- Terminal: Terminal 1
- Capacity: Large (max 20,000 TEU vessels)
- Equipment: 4 gantry cranes
- Current utilization: Normal

**Upcoming Schedule:**
- Next vessel: CMA CGM Antoine
- Scheduled arrival: 19:30 (30 minutes after expected B02 availability)
- Buffer: Adequate ✅

**Assessment:** Operations at B02 are running smoothly with no concerns. Vessel turnaround on schedule."

/-- `self.few_shot_examples`: two fixed user/assistant exemplar pairs. -/
def few_shot_examples : List Msg :=
  [Msg.user "Are there any delays right now?",
   Msg.assistant few_shot_answer_delays,
   Msg.user "Show me berth B02 for the last 3 hours",
   Msg.assistant few_shot_answer_berth]

/-! ## Conversation assembly (`process_query`, lines 297-311) -/

/-- Python `l[-k:]`. -/
def lastK (k : Nat) (l : List α) : List α := l.drop (l.length - k)

/-- The message list `process_query` assembles before the first backend
call: persona, stakeholder context, few-shot examples, trailing history
(`conversation_history[-5:]`, skipped when the history is empty/None), and
the new user query. -/
def buildMessages (user_query : String) (conversation_history : List Msg)
    (stakeholder_role : String) : List Msg :=
  let messages := [Msg.system system_prompt,
                   Msg.system (build_stakeholder_context stakeholder_role)]
  let messages := messages ++ few_shot_examples
  let messages := if conversation_history.isEmpty then messages
                  else messages ++ lastK 5 conversation_history
  messages ++ [Msg.user user_query]

/-! ## `_call_azure_with_tools` -/

/-- The `for tool_call in message["tool_calls"]` body: parse arguments
(`json.loads` raise propagates), execute, record the call, append the tool
message.  Returns the updated conversation, audit list and
`last_function_result`. -/
def execCalls (data : DataAccess) :
    List ToolCall → List Msg → List JVal → JVal →
    Except String (List Msg × List JVal × JVal)
  | [], messages, function_calls_made, last_function_result =>
    .ok (messages, function_calls_made, last_function_result)
  | tc :: rest, messages, function_calls_made, _ => do
    let function_args ← match tc.arguments with
      | some a => pure a
      | none => Except.error "Expecting value: line 1 column 1 (char 0)"
    let function_result := execute_function_with_insights data tc.name function_args
    let function_calls_made := function_calls_made ++
      [JVal.obj [("function", .str tc.name), ("arguments", .obj function_args)]]
    let messages := messages ++ [Msg.tool tc.id tc.name function_result]
    execCalls data rest messages function_calls_made function_result

def maxIterResponse : String :=
  "I\x27ve analyzed multiple aspects of the dashboard data. Could you ask a more specific question to help me focus on what matters most to you?"

/-- The result dict returned when the `while iteration < max_iterations`
loop runs out (lines 406-413). -/
def maxIterDict (function_calls_made : List JVal) : PyDict :=
  [("response", .str maxIterResponse),
   ("function_calls_made", .intv function_calls_made.length),
   ("functions_called", .arr function_calls_made),
   ("data_accessed", .boolv true),
   ("warning", .str "Max iterations reached")]

/-- The result dict returned when the assistant answers without tool calls
(lines 394-400). -/
def finalDict (content : String) (function_calls_made : List JVal)
    (last_function_result : JVal) : PyDict :=
  [("response", .str content),
   ("function_calls_made", .intv function_calls_made.length),
   ("functions_called", .arr function_calls_made),
   ("data_accessed", .boolv (decide (0 < function_calls_made.length))),
   ("raw_data", last_function_result)]

/-- `_call_azure_with_tools`: the loop, with `fuel = max_iterations -
iteration` and `idx` counting completed backend calls.  Each loop entry
makes exactly one backend call; a transport failure re-raises out of the
loop (`raise` in the `except` clause).  `last_function_result` starts as
Python `None`. -/
def call_azure_with_tools (data : DataAccess) (backend : Nat → BackendStep) :
    Nat → Nat → List Msg → List JVal → JVal → Except String PyDict
  | 0, _, _, function_calls_made, _ => .ok (maxIterDict function_calls_made)
  | fuel + 1, idx, messages, function_calls_made, last_function_result =>
    match backend idx with
    | .failure e => .error e
    | .reply message =>
      if message.tool_calls.isEmpty then
        .ok (finalDict message.content function_calls_made last_function_result)
      else
        match execCalls data message.tool_calls
          (messages ++ [Msg.assistantCalls message]) function_calls_made
          last_function_result with
        | .error e => .error e
        | .ok (msgs, fcm, lastRes) =>
          call_azure_with_tools data backend fuel (idx + 1) msgs fcm lastRes

/-! ## `_validate_and_enhance_response` -/

/-- The `elif` chain locating a truthy wait time in the last tool result:
`summary.avg_wait_time`, then `performance.avg_wait_time`, then
`avg_delay_time`. -/
def firstWaitTime (ro : PyDict) : Except String (Option JVal) := do
  let a ← chainGet ro "summary" "avg_wait_time"
  if optTruthy a then
    return a
  else
    let b ← chainGet ro "performance" "avg_wait_time"
    if optTruthy b then
      return b
    else
      let c := jget ro "avg_delay_time"
      if optTruthy c then
        return c
      else
        return none

/-- Wait-time validation (block 1).  `raw` is the already-checked
`raw_data` (`none` unless it is a truthy dict). -/
def enh1 (response_text : String) (raw : Option PyDict) : Except String (List String) := do
  if containsSub (strLower response_text) "wait" || containsSub (strLower response_text) "delay" then
    match raw with
    | none => return []
    | some ro =>
      let wt ← firstWaitTime ro
      match wt with
      | none => return []
      | some wval =>
        let w ← asNumE (some wval)
        let interpretation := interpret_wait_time w
        if pyGt w (fq 4) then
          let sev ← requireKey interpretation "severity"
          if JVal.beq sev (.str "concerning") || JVal.beq sev (.str "critical") then
            if !containsSub (strLower response_text) "critical"
                && !containsSub (strLower response_text) "concerning" then
              let msg ← requireKey interpretation "message"
              return ["\n\n⚠️ **Important Context:** " ++ pyStr msg]
            else return []
          else return []
        else return []
  else return []

/-- Accuracy validation (block 2). -/
def enh2 (response_text : String) (raw : Option PyDict) : Except String (List String) := do
  if containsSub (strLower response_text) "accuracy" then
    match raw with
    | none => return []
    | some ro =>
      let acc ← chainGet ro "performance" "avg_arrival_accuracy"
      if optTruthy acc then
        let a ← asNumE acc
        if pyLt a (fq 90) then
          if !containsSub (strLower response_text) "below target" then
            return ["\n\n📊 **Performance Note:** Current arrival accuracy (" ++ fmt1 a
              ++ "%) is below the 90% target threshold."]
          else return []
        else return []
      else return []
  else return []

/-- Utilization validation (block 3). -/
def enh3 (response_text : String) (raw : Option PyDict) : Except String (List String) := do
  if containsSub (strLower response_text) "utilization" || containsSub (strLower response_text) "capacity" then
    match raw with
    | none => return []
    | some ro =>
      let tu ← chainGet ro "berths" "total_utilization"
      if optTruthy tu then
        let u ← asNumE tu
        if pyGt u (fq 85) && !containsSub (strLower response_text) "congestion" then
          return ["\n\n⚠️ **Capacity Alert:** Berth utilization at " ++ fmt1 u
            ++ "% - approaching capacity limits (target: 75-85%)."]
        else if pyLt u (fq 70) && !containsSub (strLower response_text) "underutilized" then
          return ["\n\n📉 **Opportunity:** Berth utilization at " ++ fmt1 u
            ++ "% suggests capacity for " ++ fmt0 (pyDiv (pySub (fq 80) u) (fq 4))
            ++ " more vessels/day."]
        else return []
      else return []
  else return []

/-- Carbon context (block 4). -/
def enh4 (response_text : String) (raw : Option PyDict) : Except String (List String) := do
  if containsSub (strLower response_text) "carbon" || containsSub (strLower response_text) "emission" then
    match raw with
    | none => return []
    | some ro =>
      let cs ← chainGet ro "performance" "total_carbon_saved"
      if optTruthy cs then
        let c ← asNumE cs
        if pyGt c (fq 0) then
          let carbon_insights ← get_carbon_insights c 30
          if !containsSub (strLower response_text) "equivalent" then
            let eq ← requireKey carbon_insights "equivalents"
            let eqd ← asObjE eq
            let trees ← requireKey eqd "trees_planted"
            let cars ← requireKey eqd "cars_off_road"
            return ["\n\n🌱 **Sustainability Impact:** " ++ fmt0 c ++ " tonnes CO₂ saved = "
              ++ pyStr trees ++ " or " ++ pyStr cars ++ "."]
          else return []
        else return []
      else return []
  else return []

/-- `response_data.get('response', '')` (always a string here). -/
def vText (response_data : PyDict) : String :=
  match jget response_data "response" with
  | some (.str s) => s
  | _ => ""

/-- `raw_data = response_data.get('raw_data', {})` followed by the
`if raw_data and isinstance(raw_data, dict)` guard that protects every
use of it: `some` exactly when the value is a truthy dict. -/
def vRaw (response_data : PyDict) : Option PyDict :=
  match jget response_data "raw_data" with
  | some (.obj l) => if l.isEmpty then none else some l
  | _ => none

/-- `_validate_and_enhance_response`: appends the triggered notes to the
response text (in block order), leaving every other field unchanged. -/
def validate_and_enhance_response (response_data : PyDict) : Except String PyDict := do
  let response_text := vText response_data
  let raw : Option PyDict := vRaw response_data
  let e1 ← enh1 response_text raw
  let e2 ← enh2 response_text raw
  let e3 ← enh3 response_text raw
  let e4 ← enh4 response_text raw
  let enhancements := e1 ++ e2 ++ e3 ++ e4
  if enhancements.isEmpty then
    return response_data
  else
    return jset response_data "response" (.str (response_text ++ String.join enhancements))

/-! ## `process_query` -/

/-- The error payload built by `process_query`'s `except` clause. -/
def errorPayload (e : String) : PyDict :=
  [("response", .str ("I encountered an error analyzing the dashboard: " ++ e
      ++ ". Please try rephrasing your question.")),
   ("function_calls_made", .intv 0),
   ("data_accessed", .boolv false),
   ("error", .str e)]

/-- `process_query(user_query, conversation_history=None,
stakeholder_role="middle_management")`: build the conversation, run the
tool loop, post-process with the validator; any exception raised inside the
`try:` (backend transport failure, argument-parse failure re-raised by the
loop, or a raise inside the validator) is converted to `errorPayload`. -/
def process_query (data : DataAccess) (backend : Nat → BackendStep)
    (user_query : String) (conversation_history : List Msg)
    (stakeholder_role : String) : PyDict :=
  match call_azure_with_tools data backend 5 0
      (buildMessages user_query conversation_history stakeholder_role) [] JVal.null with
  | .error e => errorPayload e
  | .ok response_data =>
    match validate_and_enhance_response response_data with
    | .error e => errorPayload e
    | .ok rd => rd


/-! ## Supporting definitions for the verified properties -/

/-- A backend stub reply that "always requests a tool call" in the spec's
sense: the call succeeds, carries at least one tool call, and each call's
arguments are a mapping (the spec's `ToolCallRequest.arguments` is already
a parsed mapping). -/
def GoodToolReply (b : BackendStep) : Prop :=
  ∃ m, b = .reply m ∧ m.tool_calls ≠ [] ∧ ∀ tc ∈ m.tool_calls, tc.arguments ≠ none

/-- The `functions_called` audit entry the loop records for one tool call. -/
def callEntry (tc : ToolCall) : JVal :=
  .obj [("function", .str tc.name), ("arguments", .obj (tc.arguments.getD []))]

def callEntries : BackendStep → List JVal
  | .reply m => m.tool_calls.map callEntry
  | .failure _ => []

/-- The audit entries accumulated over backend calls `idx`, ...,
`idx + fuel - 1`. -/
def collectCalls (backend : Nat → BackendStep) : Nat → Nat → List JVal
  | _, 0 => []
  | idx, fuel + 1 => callEntries (backend idx) ++ collectCalls backend (idx + 1) fuel

/-- A Data Access stub whose queries all succeed with empty results. -/
def stubDataEmpty : DataAccess :=
  ⟨.ok (.obj []), fun _ => .ok (.obj []), fun _ _ => .ok (.obj []), fun _ => .ok (.arr [])⟩

/-- A Data Access stub whose every query raises. -/
def failingData : DataAccess :=
  ⟨.error "db down", fun _ => .error "db down", fun _ _ => .error "db down",
   fun _ => .error "db down"⟩

/-- A backend stub that requests the same tool call on every iteration. -/
def alwaysToolBackend : Nat → BackendStep :=
  fun _ => .reply ⟨"", [⟨"call_1", "get_dashboard_state", some []⟩]⟩

/-- A backend stub whose transport always raises. -/
def failingBackend : Nat → BackendStep := fun _ => .failure "Connection aborted"

/-- A backend stub that first requests an unregistered tool, then answers. -/
def unknownToolBackend : Nat → BackendStep := fun i =>
  if i = 0 then .reply ⟨"", [⟨"call_1", "bogus_tool", some []⟩]⟩
  else .reply ⟨"DONE", []⟩

/-- A backend stub whose first tool call carries arguments on which
`json.loads` raises, followed by a final answer. -/
def malformedArgsBackend : Nat → BackendStep := fun i =>
  if i = 0 then .reply ⟨"", [⟨"call_1", "get_dashboard_state", none⟩]⟩
  else .reply ⟨"DONE", []⟩

/-- A backend stub that answers immediately with free text. -/
def textOnlyBackend : Nat → BackendStep := fun _ => .reply ⟨"All good", []⟩

/-- Dashboard state with a current average wait time of 7.2 hours. -/
def wait72Data : DataAccess :=
  ⟨.ok (.obj [("performance", .obj [("avg_wait_time", .num (.fin ⟨36, 5⟩))])]),
   fun _ => .ok (.obj []), fun _ _ => .ok (.obj []), fun _ => .ok (.arr [])⟩

/-- A stub that calls `get_dashboard_state` once and then answers
"Operations fine, no issues". -/
def opsFineBackend : Nat → BackendStep := fun i =>
  if i = 0 then .reply ⟨"", [⟨"call_1", "get_dashboard_state", some []⟩]⟩
  else .reply ⟨"Operations fine, no issues", []⟩

/-- Like `opsFineBackend`, but the final answer mentions delays. -/
def noDelaysBackend : Nat → BackendStep := fun i =>
  if i = 0 then .reply ⟨"", [⟨"call_1", "get_dashboard_state", some []⟩]⟩
  else .reply ⟨"No delays, operations fine", []⟩

/-- Validator input: an answer mentioning delays over data with a 5.0-hour
(`concerning`) average wait. -/
def concerningInput : PyDict :=
  [("response", .str "delay status"),
   ("raw_data", .obj [("summary", .obj [("avg_wait_time", .num (.fin ⟨5, 1⟩))])])]

def concerningNote : String :=
  "\n\n⚠️ **Important Context:** Wait time of 5.0 hours exceeds target (2 hours) - attention needed"

/-- Validator input: an answer mentioning delays over data with a 7.2-hour
(`critical`) average wait. -/
def criticalInput : PyDict :=
  [("response", .str "delay report"),
   ("raw_data", .obj [("summary", .obj [("avg_wait_time", .num (.fin ⟨36, 5⟩))])])]

def criticalNote : String :=
  "\n\n⚠️ **Important Context:** Wait time of 7.2 hours is CRITICAL - immediate action required"

/-- Do consecutive table ranges satisfy `range[i].max == range[i+1].min`? -/
def chainOk : List ThresholdRange → Bool
  | [] => true
  | [_] => true
  | r1 :: r2 :: rest => (r1.2.2 == r2.2.1) && chainOk (r2 :: rest)

/-- `arrival_accuracy_ranges` reordered by ascending `min`. -/
def arrival_accuracy_sorted : List ThresholdRange :=
  [("poor", fq 0, fq 85),
   ("needs_improvement", fq 85, fq 90),
   ("good", fq 90, fq 95),
   ("excellent", fq 95, fq 100)]

/-- `berth_utilization_ranges` reordered by ascending `min`. -/
def berth_utilization_sorted : List ThresholdRange :=
  [("underutilized", fq 0, fq 75),
   ("optimal", fq 75, fq 85),
   ("congested", fq 85, fq 100)]

/-- `carbon_performance_ranges` reordered by ascending `min`. -/
def carbon_performance_sorted : List ThresholdRange :=
  [("poor", fq 0, fq 10),
   ("acceptable", fq 10, fq 15),
   ("good", fq 15, fq 20),
   ("excellent", fq 20, .inf)]

/-! ## Helper lemmas -/

theorem enh1_none (t : String) : enh1 t none = .ok [] := by
  unfold enh1; split <;> rfl

theorem enh2_none (t : String) : enh2 t none = .ok [] := by
  unfold enh2; split <;> rfl

theorem enh3_none (t : String) : enh3 t none = .ok [] := by
  unfold enh3; split <;> rfl

theorem enh4_none (t : String) : enh4 t none = .ok [] := by
  unfold enh4; split <;> rfl

/-- When `raw_data` is not a truthy dict, the validator changes nothing. -/
theorem validate_eq_of (rd : PyDict) (h : vRaw rd = none) :
    validate_and_enhance_response rd = .ok rd := by
  unfold validate_and_enhance_response
  simp only [h, enh1_none, enh2_none, enh3_none, enh4_none]
  rfl

/-! ## C4: threshold-table partition -/

/-- C4 counterexample: the claim says the tables are half-open and
non-overlapping, but `interpret_arrival_accuracy` matches with the closed
test `min <= x <= max`, so the boundary value 95 lies in both the
`good` and the `excellent` range of `arrival_accuracy_ranges`. -/
theorem C4_partition_cex :
    ("excellent", fq 95, fq 100) ∈ arrival_accuracy_ranges ∧
    ("good", fq 90, fq 95) ∈ arrival_accuracy_ranges ∧
    closedMatch ("excellent", fq 95, fq 100) (fq 95) = true ∧
    closedMatch ("good", fq 90, fq 95) (fq 95) = true := by
  refine ⟨by decide, by decide, rfl, rfl⟩

/-- C4 amended: sorted by range minimum, every threshold table satisfies
`range[i].max == range[i+1].min` (no gaps); `wait_time` is matched with a
half-open test and its ranges are pairwise disjoint; but
`arrival_accuracy` and `berth_utilization` are matched with closed
intervals, so their shared endpoints (95, 75, ...) belong to two adjacent
ranges — ties resolved by table order via first match. -/
theorem C4_partition_amended :
    (chainOk wait_time_ranges = true ∧
     arrival_accuracy_sorted.Perm arrival_accuracy_ranges ∧
     chainOk arrival_accuracy_sorted = true ∧
     berth_utilization_sorted.Perm berth_utilization_ranges ∧
     chainOk berth_utilization_sorted = true ∧
     carbon_performance_sorted.Perm carbon_performance_ranges ∧
     chainOk carbon_performance_sorted = true) ∧
    (∀ v : PyFloat, ∀ r1 ∈ wait_time_ranges, ∀ r2 ∈ wait_time_ranges,
      waitMatch r1 v = true → waitMatch r2 v = true → r1 = r2) ∧
    (closedMatch ("good", fq 90, fq 95) (fq 95) = true ∧
     closedMatch ("excellent", fq 95, fq 100) (fq 95) = true ∧
     closedMatch ("underutilized", fq 0, fq 75) (fq 75) = true ∧
     closedMatch ("optimal", fq 75, fq 85) (fq 75) = true) := by
  refine ⟨by decide, ?_, by decide⟩
  intro v r1 h1 r2 h2 m1 m2
  fin_cases h1 <;> fin_cases h2 <;> try rfl
  all_goals
    cases v <;> simp_all [waitMatch, fq, pyLe, pyLt, fracLe, fracLt]
  all_goals omega

/-! ## C5: DKB totality -/

/-- C5: for every input (finite, infinite or NaN), each `interpret_*`
function returns a classification with a non-empty `level` (they are total
functions — no raise), and an input matching no range yields the explicit
`unknown` classification. -/
theorem C5_dkb_totality (v : PyFloat) :
    (∃ s, jget (interpret_wait_time v) "level" = some (.str s) ∧ s ≠ "") ∧
    (∃ s, jget (interpret_arrival_accuracy v) "level" = some (.str s) ∧ s ≠ "") ∧
    (∃ s, jget (interpret_berth_utilization v) "level" = some (.str s) ∧ s ≠ "") ∧
    ((∀ r ∈ wait_time_ranges, waitMatch r v = false) →
      jget (interpret_wait_time v) "level" = some (.str "unknown")) ∧
    ((∀ r ∈ arrival_accuracy_ranges, closedMatch r v = false) →
      jget (interpret_arrival_accuracy v) "level" = some (.str "unknown")) ∧
    ((∀ r ∈ berth_utilization_ranges, closedMatch r v = false) →
      jget (interpret_berth_utilization v) "level" = some (.str "unknown")) := by
  refine ⟨?_, ?_, ?_, ?_, ?_, ?_⟩
  · cases h : wait_time_ranges.find? (fun r => waitMatch r v) with
    | none => exact ⟨"unknown", by unfold interpret_wait_time; rw [h]; rfl, by decide⟩
    | some r =>
      have hm := List.mem_of_find?_eq_some h
      simp only [wait_time_ranges, List.mem_cons, List.not_mem_nil, or_false] at hm
      rcases hm with rfl | rfl | rfl | rfl
      · exact ⟨"excellent", by unfold interpret_wait_time; rw [h]; rfl, by decide⟩
      · exact ⟨"good", by unfold interpret_wait_time; rw [h]; rfl, by decide⟩
      · exact ⟨"concerning", by unfold interpret_wait_time; rw [h]; rfl, by decide⟩
      · exact ⟨"critical", by unfold interpret_wait_time; rw [h]; rfl, by decide⟩
  · cases h : arrival_accuracy_ranges.find? (fun r => closedMatch r v) with
    | none => exact ⟨"unknown", by unfold interpret_arrival_accuracy; rw [h]; rfl, by decide⟩
    | some r =>
      have hm := List.mem_of_find?_eq_some h
      simp only [arrival_accuracy_ranges, List.mem_cons, List.not_mem_nil, or_false] at hm
      rcases hm with rfl | rfl | rfl | rfl
      · exact ⟨"excellent", by unfold interpret_arrival_accuracy; rw [h]; rfl, by decide⟩
      · exact ⟨"good", by unfold interpret_arrival_accuracy; rw [h]; rfl, by decide⟩
      · exact ⟨"needs_improvement", by unfold interpret_arrival_accuracy; rw [h]; rfl, by decide⟩
      · exact ⟨"poor", by unfold interpret_arrival_accuracy; rw [h]; rfl, by decide⟩
  · cases h : berth_utilization_ranges.find? (fun r => closedMatch r v) with
    | none => exact ⟨"unknown", by unfold interpret_berth_utilization; rw [h]; rfl, by decide⟩
    | some r =>
      have hm := List.mem_of_find?_eq_some h
      simp only [berth_utilization_ranges, List.mem_cons, List.not_mem_nil, or_false] at hm
      rcases hm with rfl | rfl | rfl
      · exact ⟨"optimal", by unfold interpret_berth_utilization; rw [h]; rfl, by decide⟩
      · exact ⟨"underutilized", by unfold interpret_berth_utilization; rw [h]; rfl, by decide⟩
      · exact ⟨"congested", by unfold interpret_berth_utilization; rw [h]; rfl, by decide⟩
  · intro hall
    have h : wait_time_ranges.find? (fun r => waitMatch r v) = none :=
      List.find?_eq_none.mpr (fun x hx => by simp [hall x hx])
    unfold interpret_wait_time; rw [h]; rfl
  · intro hall
    have h : arrival_accuracy_ranges.find? (fun r => closedMatch r v) = none :=
      List.find?_eq_none.mpr (fun x hx => by simp [hall x hx])
    unfold interpret_arrival_accuracy; rw [h]; rfl
  · intro hall
    have h : berth_utilization_ranges.find? (fun r => closedMatch r v) = none :=
      List.find?_eq_none.mpr (fun x hx => by simp [hall x hx])
    unfold interpret_berth_utilization; rw [h]; rfl

/-- C5 witness: at `nan` no range matches and all three functions answer
`unknown`. -/
theorem C5_dkb_totality_witness :
    jget (interpret_wait_time .nan) "level" = some (.str "unknown") ∧
    jget (interpret_arrival_accuracy .nan) "level" = some (.str "unknown") ∧
    jget (interpret_berth_utilization .nan) "level" = some (.str "unknown") :=
  ⟨(C5_dkb_totality .nan).2.2.2.1 (by decide),
   (C5_dkb_totality .nan).2.2.2.2.1 (by decide),
   (C5_dkb_totality .nan).2.2.2.2.2 (by decide)⟩

/-! ## C10: `action_needed` field -/

/-- C10 counterexample: the `unknown` classification returned for an
out-of-range input (here -1 hours) has no `action_needed` key at all,
against the data model's requirement. -/
theorem C10_action_needed_cex :
    jget (interpret_wait_time (fq (-1))) "level" = some (.str "unknown") ∧
    jget (interpret_wait_time (fq (-1))) "action_needed" = none := ⟨rfl, rfl⟩

/-- C10 amended: every in-range classification carries a boolean
`action_needed` (alongside level, icon, message), but the `unknown`
classification carries only level, icon and message — no `action_needed`. -/
theorem C10_action_needed_amended (v : PyFloat) :
    ((∃ b, jget (interpret_wait_time v) "action_needed" = some (.boolv b)) ∨
      (jget (interpret_wait_time v) "level" = some (.str "unknown") ∧
       jget (interpret_wait_time v) "action_needed" = none)) ∧
    ((∃ b, jget (interpret_arrival_accuracy v) "action_needed" = some (.boolv b)) ∨
      (jget (interpret_arrival_accuracy v) "level" = some (.str "unknown") ∧
       jget (interpret_arrival_accuracy v) "action_needed" = none)) ∧
    ((∃ b, jget (interpret_berth_utilization v) "action_needed" = some (.boolv b)) ∨
      (jget (interpret_berth_utilization v) "level" = some (.str "unknown") ∧
       jget (interpret_berth_utilization v) "action_needed" = none)) := by
  refine ⟨?_, ?_, ?_⟩
  · cases h : wait_time_ranges.find? (fun r => waitMatch r v) with
    | none => exact Or.inr ⟨by unfold interpret_wait_time; rw [h]; rfl,
        by unfold interpret_wait_time; rw [h]; rfl⟩
    | some r =>
      obtain ⟨l, mn, mx⟩ := r
      exact Or.inl ⟨_, by unfold interpret_wait_time; rw [h]; rfl⟩
  · cases h : arrival_accuracy_ranges.find? (fun r => closedMatch r v) with
    | none => exact Or.inr ⟨by unfold interpret_arrival_accuracy; rw [h]; rfl,
        by unfold interpret_arrival_accuracy; rw [h]; rfl⟩
    | some r =>
      obtain ⟨l, mn, mx⟩ := r
      exact Or.inl ⟨_, by unfold interpret_arrival_accuracy; rw [h]; rfl⟩
  · cases h : berth_utilization_ranges.find? (fun r => closedMatch r v) with
    | none => exact Or.inr ⟨by unfold interpret_berth_utilization; rw [h]; rfl,
        by unfold interpret_berth_utilization; rw [h]; rfl⟩
    | some r =>
      obtain ⟨l, mn, mx⟩ := r
      exact Or.inl ⟨_, by unfold interpret_berth_utilization; rw [h]; rfl⟩

/-! ## C3: validator idempotence -/

/-- C3 counterexample: for the answer "delay status" over a 5.0-hour
average wait, the first validator pass appends the `concerning` note —
whose text contains neither "critical" nor "concerning" — so a second pass
appends the very same note again: the validator is not idempotent. -/
theorem C3_validator_idempotence_cex :
    validate_and_enhance_response concerningInput =
      .ok (jset concerningInput "response" (.str ("delay status" ++ concerningNote))) ∧
    validate_and_enhance_response
        (jset concerningInput "response" (.str ("delay status" ++ concerningNote))) =
      .ok (jset concerningInput "response"
        (.str ("delay status" ++ concerningNote ++ concerningNote))) ∧
    ("delay status" ++ concerningNote) ≠ ("delay status" ++ concerningNote ++ concerningNote) :=
  ⟨rfl, rfl, by decide⟩

/-- C3 amended: the validator is idempotent only on pairs where the note
appended by the first run itself contains the gating keyword — as the
critical wait-time note does ("... is CRITICAL ...") — and in that case the
second run adds nothing; in general (e.g. the concerning wait-time note,
which lacks its keyword) the second run appends the note again. -/
theorem C3_validator_idempotence_amended :
    validate_and_enhance_response criticalInput =
      .ok (jset criticalInput "response" (.str ("delay report" ++ criticalNote))) ∧
    validate_and_enhance_response
        (jset criticalInput "response" (.str ("delay report" ++ criticalNote))) =
      .ok (jset criticalInput "response" (.str ("delay report" ++ criticalNote))) ∧
    containsSub (strLower criticalNote) "critical" = true ∧
    containsSub (strLower concerningNote) "critical" = false ∧
    containsSub (strLower concerningNote) "concerning" = false :=
  ⟨rfl, rfl, rfl, rfl, rfl⟩

/-! ## C6: concrete severity scenario -/

/-- C6 counterexample: with `get_dashboard_state` called once and the
average wait time at 7.2 hours, the final answer "Operations fine, no
issues" contains neither "wait" nor "delay", so no validator block
triggers: the response comes back unchanged and no note containing
"CRITICAL" is appended, contrary to the claim. -/
theorem C6_scenario_cex :
    jget (process_query wait72Data opsFineBackend "How are operations?" [] "middle_management")
        "response" = some (.str "Operations fine, no issues") ∧
    containsSub (strLower "Operations fine, no issues") "critical" = false ∧
    containsSub (strLower "Operations fine, no issues") "wait" = false ∧
    containsSub (strLower "Operations fine, no issues") "delay" = false ∧
    jget (interpret_wait_time (.fin ⟨36, 5⟩)) "level" = some (.str "critical") :=
  ⟨rfl, rfl, rfl, rfl, rfl⟩

/-- C6 amended: the validator appends the CRITICAL note only when the
answer mentions a tracked topic keyword; for the same stub and data but the
answer "No delays, operations fine" (which mentions delays), the note
containing "CRITICAL" is appended. -/
theorem C6_scenario_amended :
    jget (process_query wait72Data noDelaysBackend "Any delays?" [] "middle_management")
        "response" = some (.str ("No delays, operations fine" ++ criticalNote)) ∧
    containsSub ("No delays, operations fine" ++ criticalNote) "CRITICAL" = true :=
  ⟨rfl, rfl⟩

/-! ## C7: error payload shape -/

/-- C7 counterexample: when the backend transport raises, `process_query`
returns the except-branch payload, which carries `response`,
`function_calls_made`, `data_accessed` and `error` — but no
`functions_called` list and no `raw_data`, contrary to the claim. -/
theorem C7_error_payload_cex :
    process_query stubDataEmpty failingBackend "q" [] "middle_management" =
      errorPayload "Connection aborted" ∧
    jget (errorPayload "Connection aborted") "functions_called" = none ∧
    jget (errorPayload "Connection aborted") "raw_data" = none ∧
    jget (errorPayload "Connection aborted") "error" = some (.str "Connection aborted") :=
  ⟨rfl, rfl, rfl, rfl⟩

/-- C7 amended: any exception escaping the tool loop (and any raised inside
the validator) is converted into the fixed error payload, whose keys are
exactly `response`, `function_calls_made` (0), `data_accessed` (false) and
`error` — well-formed, but without the `functions_called` audit list or
`raw_data`. -/
theorem C7_error_payload_amended :
    (∀ (data : DataAccess) (backend : Nat → BackendStep) (q : String) (hist : List Msg)
        (role : String) (e : String),
      call_azure_with_tools data backend 5 0 (buildMessages q hist role) [] .null = .error e →
      process_query data backend q hist role = errorPayload e) ∧
    (∀ (data : DataAccess) (backend : Nat → BackendStep) (q : String) (hist : List Msg)
        (role : String) (rd : PyDict) (e : String),
      call_azure_with_tools data backend 5 0 (buildMessages q hist role) [] .null = .ok rd →
      validate_and_enhance_response rd = .error e →
      process_query data backend q hist role = errorPayload e) ∧
    (∀ e, (errorPayload e).map Prod.fst =
        ["response", "function_calls_made", "data_accessed", "error"] ∧
      jget (errorPayload e) "function_calls_made" = some (.intv 0) ∧
      jget (errorPayload e) "data_accessed" = some (.boolv false) ∧
      jget (errorPayload e) "error" = some (.str e) ∧
      jget (errorPayload e) "functions_called" = none ∧
      jget (errorPayload e) "raw_data" = none) := by
  refine ⟨?_, ?_, ?_⟩
  · intro data backend q hist role e h
    unfold process_query
    rw [h]
  · intro data backend q hist role rd e h1 h2
    unfold process_query
    rw [h1]
    simp only [h2]
  · intro e
    exact ⟨rfl, rfl, rfl, rfl, rfl, rfl⟩

/-- C7 witness: the amended theorem applied to the failing transport stub. -/
theorem C7_error_payload_witness :
    process_query stubDataEmpty failingBackend "what is happening" [] "top_management" =
      errorPayload "Connection aborted" :=
  C7_error_payload_amended.1 stubDataEmpty failingBackend "what is happening" []
    "top_management" "Connection aborted" rfl

/-! ## C8: grounding -/

/-- C8: if the backend's first reply carries zero tool calls, the result's
`functions_called` is the empty list and `data_accessed` is false. -/
theorem C8_grounding (data : DataAccess) (backend : Nat → BackendStep) (q : String)
    (hist : List Msg) (role : String) (c : String)
    (hb : backend 0 = .reply ⟨c, []⟩) :
    jget (process_query data backend q hist role) "functions_called" = some (.arr []) ∧
    jget (process_query data backend q hist role) "data_accessed" = some (.boolv false) := by
  have hloop : call_azure_with_tools data backend 5 0 (buildMessages q hist role) [] JVal.null
      = .ok (finalDict c [] JVal.null) := by
    rw [call_azure_with_tools, hb]
    rfl
  unfold process_query
  rw [hloop]
  simp only [validate_eq_of (finalDict c [] JVal.null) rfl]
  exact ⟨rfl, rfl⟩

/-- C8 witness: a stub that answers immediately with free text. -/
theorem C8_grounding_witness :
    jget (process_query stubDataEmpty textOnlyBackend "q" [] "middle_management")
        "functions_called" = some (.arr []) ∧
    jget (process_query stubDataEmpty textOnlyBackend "q" [] "middle_management")
        "data_accessed" = some (.boolv false) :=
  C8_grounding stubDataEmpty textOnlyBackend "q" [] "middle_management" "All good" rfl

/-! ## C9: conversation assembly order -/

/-- C9: for every invocation, the message list sent to the backend is, in
order: the system persona block, the stakeholder-context block derived from
the caller's role, the fixed few-shot exemplar pairs, the last `K = 5`
messages of the caller-supplied history, and the new user message; the
history slice is a suffix of the history of length `min 5 |history|`. -/
theorem C9_message_order (user_query : String) (conversation_history : List Msg)
    (stakeholder_role : String) :
    buildMessages user_query conversation_history stakeholder_role =
      [Msg.system system_prompt, Msg.system (build_stakeholder_context stakeholder_role)]
        ++ few_shot_examples ++ lastK 5 conversation_history ++ [Msg.user user_query] ∧
    (lastK 5 conversation_history).length = min 5 conversation_history.length ∧
    List.IsSuffix (lastK 5 conversation_history) conversation_history := by
  refine ⟨?_, ?_, List.drop_suffix _ _⟩
  · by_cases h : conversation_history = []
    · simp [buildMessages, h, lastK]
    · have he : conversation_history.isEmpty = false := by
        simpa [List.isEmpty_iff] using h
      simp [buildMessages, he, List.append_assoc]
  · simp only [lastK, List.length_drop]
    omega

/-! ## C2: tool-failure handling -/

/-- C2 counterexample: a tool call whose argument string fails `json.loads`
is not converted into an error ToolResult — the parse error raises out of
the loop, `process_query`'s top-level handler returns the error payload,
and the backend's next reply ("DONE") is never consulted: the conversation
is aborted, not continued. -/
theorem C2_tool_failure_cex :
    process_query stubDataEmpty malformedArgsBackend "q" [] "middle_management" =
      errorPayload "Expecting value: line 1 column 1 (char 0)" ∧
    malformedArgsBackend 1 = .reply ⟨"DONE", []⟩ ∧
    jget (errorPayload "Expecting value: line 1 column 1 (char 0)") "response" =
      some (.str "I encountered an error analyzing the dashboard: Expecting value: line 1 column 1 (char 0). Please try rephrasing your question.") ∧
    "I encountered an error analyzing the dashboard: Expecting value: line 1 column 1 (char 0). Please try rephrasing your question." ≠ "DONE" ∧
    jget (errorPayload "Expecting value: line 1 column 1 (char 0)") "warning" = none :=
  ⟨rfl, rfl, rfl, by decide, rfl⟩

/-- C2 amended: a Data Access raise or an unregistered tool name is caught
by the executor and converted into an `{"error": ...}` ToolResult, and the
loop continues (an unregistered first call still reaches the final
answer); but arguments failing `json.loads` raise out of the loop and are
handled by `process_query`'s top-level handler, which returns the error
payload instead of continuing the conversation. -/
theorem C2_tool_failure_amended :
    (∀ (data : DataAccess) (args : PyDict) (e : String),
      data.get_current_state = .error e →
      execute_function_with_insights data "get_dashboard_state" args =
        .obj [("error", .str e)]) ∧
    (∀ (data : DataAccess) (args : PyDict) (e : String),
      data.filter_data args = .error e →
      execute_function_with_insights data "filter_data" args = .obj [("error", .str e)]) ∧
    (∀ (data : DataAccess) (args : PyDict) (e : String),
      data.analyze_delays (jget args "berth") ((jget args "time_period").getD (.str "24h"))
          = .error e →
      execute_function_with_insights data "analyze_delays" args = .obj [("error", .str e)]) ∧
    (∀ (data : DataAccess) (args : PyDict) (e : String),
      data.get_recommendations (jget args "focus_area") = .error e →
      execute_function_with_insights data "get_recommendations" args =
        .obj [("error", .str e)]) ∧
    (∀ (data : DataAccess) (args : PyDict) (name : String),
      name ≠ "get_dashboard_state" → name ≠ "filter_data" → name ≠ "analyze_delays" →
      name ≠ "get_recommendations" →
      execute_function_with_insights data name args =
        .obj [("error", .str ("Unknown function: " ++ name))]) ∧
    (process_query stubDataEmpty unknownToolBackend "q" [] "middle_management" =
      finalDict "DONE" [JVal.obj [("function", .str "bogus_tool"), ("arguments", .obj [])]]
        (.obj [("error", .str "Unknown function: bogus_tool")])) ∧
    (process_query stubDataEmpty malformedArgsBackend "q" [] "middle_management" =
      errorPayload "Expecting value: line 1 column 1 (char 0)") := by
  refine ⟨?_, ?_, ?_, ?_, ?_, rfl, rfl⟩
  · intro data args e h
    unfold execute_function_with_insights execute_function_core
    rw [h]
    rfl
  · intro data args e h
    unfold execute_function_with_insights execute_function_core
    rw [h]
    rfl
  · intro data args e h
    unfold execute_function_with_insights execute_function_core
    rw [h]
    rfl
  · intro data args e h
    unfold execute_function_with_insights execute_function_core
    rw [h]
    rfl
  · intro data args name h1 h2 h3 h4
    have e1 : (name == "get_dashboard_state") = false := beq_eq_false_iff_ne.mpr h1
    have e2 : (name == "filter_data") = false := beq_eq_false_iff_ne.mpr h2
    have e3 : (name == "analyze_delays") = false := beq_eq_false_iff_ne.mpr h3
    have e4 : (name == "get_recommendations") = false := beq_eq_false_iff_ne.mpr h4
    unfold execute_function_with_insights execute_function_core
    simp only [e1, e2, e3, e4]
    rfl

/-- C2 witness: a raising Data Access stub and an unregistered tool name,
through the amended theorem. -/
theorem C2_tool_failure_witness :
    execute_function_with_insights failingData "get_dashboard_state" [] =
      .obj [("error", .str "db down")] ∧
    execute_function_with_insights stubDataEmpty "bogus_tool" [] =
      .obj [("error", .str "Unknown function: bogus_tool")] :=
  ⟨C2_tool_failure_amended.1 failingData [] "db down" rfl,
   C2_tool_failure_amended.2.2.2.2.1 stubDataEmpty [] "bogus_tool"
     (by decide) (by decide) (by decide) (by decide)⟩

/-! ## C1: orchestrator termination -/

/-- Executing a list of tool calls whose arguments all parse never raises
and appends exactly one audit entry per call, in order. -/
theorem execCalls_ok (data : DataAccess) :
    ∀ (calls : List ToolCall), (∀ tc ∈ calls, tc.arguments ≠ none) →
    ∀ (msgs : List Msg) (fcm : List JVal) (last : JVal), ∃ msgs2 last2,
      execCalls data calls msgs fcm last = .ok (msgs2, fcm ++ calls.map callEntry, last2) := by
  intro calls
  induction calls with
  | nil =>
    intro _ msgs fcm last
    exact ⟨msgs, last, by simp [execCalls]⟩
  | cons tc rest ih =>
    intro h msgs fcm last
    obtain ⟨a, ha⟩ := Option.ne_none_iff_exists'.mp (h tc (List.mem_cons_self tc rest))
    obtain ⟨m2, l2, hrec⟩ := ih (fun x hx => h x (List.mem_cons_of_mem tc hx))
      (msgs ++ [Msg.tool tc.id tc.name (execute_function_with_insights data tc.name a)])
      (fcm ++ [JVal.obj [("function", .str tc.name), ("arguments", .obj a)]])
      (execute_function_with_insights data tc.name a)
    refine ⟨m2, l2, ?_⟩
    have hl : fcm ++ (tc :: rest).map callEntry
        = (fcm ++ [JVal.obj [("function", .str tc.name), ("arguments", .obj a)]])
            ++ rest.map callEntry := by
      simp [callEntry, ha]
    rw [execCalls, ha, hl]
    exact hrec

/-- If every backend call up to the fuel bound requests tool calls with
parseable arguments, the loop exhausts its fuel and returns the
max-iterations dict carrying all accumulated audit entries. -/
theorem loop_all_tools (data : DataAccess) (backend : Nat → BackendStep) :
    ∀ (fuel idx : Nat) (msgs : List Msg) (fcm : List JVal) (last : JVal),
      (∀ i, idx ≤ i → i < idx + fuel → GoodToolReply (backend i)) →
      call_azure_with_tools data backend fuel idx msgs fcm last =
        .ok (maxIterDict (fcm ++ collectCalls backend idx fuel)) := by
  intro fuel
  induction fuel with
  | zero =>
    intro idx msgs fcm last _
    simp [call_azure_with_tools, collectCalls]
  | succ n ih =>
    intro idx msgs fcm last H
    obtain ⟨m, hb, hne, hargs⟩ := H idx (Nat.le_refl idx) (by omega)
    have hemp : m.tool_calls.isEmpty = false := by
      cases hml : m.tool_calls with
      | nil => exact absurd hml hne
      | cons a l => rfl
    obtain ⟨m2, l2, hex⟩ := execCalls_ok data m.tool_calls hargs
      (msgs ++ [Msg.assistantCalls m]) fcm last
    rw [call_azure_with_tools, hb]
    simp only [hemp, Bool.false_eq_true, if_false]
    rw [hex]
    show call_azure_with_tools data backend n (idx + 1) m2
        (fcm ++ m.tool_calls.map callEntry) l2
      = .ok (maxIterDict (fcm ++ collectCalls backend idx (n + 1)))
    rw [ih (idx + 1) _ _ _ (fun i h1 h2 => H i (by omega) (by omega))]
    have hc : collectCalls backend idx (n + 1)
        = m.tool_calls.map callEntry ++ collectCalls backend (idx + 1) n := by
      rw [collectCalls, hb]
      rfl
    rw [hc, ← List.append_assoc]

/-- The loop's audit trail only consults the backend below the fuel bound. -/
theorem collectCalls_congr (backend backend' : Nat → BackendStep) :
    ∀ (fuel idx : Nat), (∀ i, idx ≤ i → i < idx + fuel → backend' i = backend i) →
      collectCalls backend' idx fuel = collectCalls backend idx fuel := by
  intro fuel
  induction fuel with
  | zero => intro idx _; rfl
  | succ n ih =>
    intro idx H
    rw [collectCalls, collectCalls, H idx (Nat.le_refl idx) (by omega),
      ih (idx + 1) (fun i h1 h2 => H i (by omega) (by omega))]

/-- C1: for every Data Access stub and every backend stub that always
requests tool calls (with parseable arguments, as the spec's
`ToolCallRequest` carries a mapping), `process_query` terminates, makes at
most `max_iterations = 5` backend calls (the result depends only on the
first five replies), and returns the canned response whose `warning` field
is set, together with the count (`function_calls_made`) and identity
(`functions_called`) of the tools already invoked. -/
theorem C1_orchestrator_termination (data : DataAccess) (backend : Nat → BackendStep)
    (q : String) (hist : List Msg) (role : String)
    (H : ∀ i, i < 5 → GoodToolReply (backend i)) :
    jget (process_query data backend q hist role) "warning"
        = some (.str "Max iterations reached") ∧
    jget (process_query data backend q hist role) "functions_called"
        = some (.arr (collectCalls backend 0 5)) ∧
    jget (process_query data backend q hist role) "function_calls_made"
        = some (.intv (collectCalls backend 0 5).length) ∧
    ∀ backend' : Nat → BackendStep, (∀ i, i < 5 → backend' i = backend i) →
      process_query data backend' q hist role = process_query data backend q hist role := by
  have key : ∀ (b : Nat → BackendStep), (∀ i, i < 5 → GoodToolReply (b i)) →
      process_query data b q hist role = maxIterDict (collectCalls b 0 5) := by
    intro b Hb
    unfold process_query
    rw [loop_all_tools data b 5 0 _ [] JVal.null (fun i h1 h2 => Hb i (by omega))]
    simp only [List.nil_append,
      validate_eq_of (maxIterDict (collectCalls b 0 5)) rfl]
  rw [key backend H]
  refine ⟨rfl, rfl, rfl, ?_⟩
  intro backend' Hb'
  have Hgood' : ∀ i, i < 5 → GoodToolReply (backend' i) := by
    intro i hi
    rw [Hb' i hi]
    exact H i hi
  rw [key backend' Hgood',
    collectCalls_congr backend backend' 5 0 (fun i h1 h2 => Hb' i (by omega))]

/-- C1 witness: a stub that always requests `get_dashboard_state` hits the
iteration ceiling after exactly five backend calls. -/
theorem C1_orchestrator_termination_witness :
    jget (process_query stubDataEmpty alwaysToolBackend "q" [] "middle_management") "warning"
      = some (.str "Max iterations reached") ∧
    jget (process_query stubDataEmpty alwaysToolBackend "q" [] "middle_management")
        "function_calls_made" = some (.intv 5) := by
  have hgood : ∀ i, i < 5 → GoodToolReply (alwaysToolBackend i) := by
    intro i _
    refine ⟨⟨"", [⟨"call_1", "get_dashboard_state", some []⟩]⟩, rfl, by simp, ?_⟩
    rintro tc hm
    simp only [List.mem_singleton] at hm
    subst hm
    simp
  have h := C1_orchestrator_termination stubDataEmpty alwaysToolBackend "q" []
    "middle_management" hgood
  refine ⟨h.1, ?_⟩
  rw [h.2.2.1]
  rfl
